import Mathlib

/-
  Shallow embedding of src/windows/phylo/phylo.cpp.

  The program is a Windows directory-listing utility.  The embedding
  models the pure computations (timestamp conversion, attribute-letter
  formatting, line composition) directly, and models the effectful parts
  (the FindFirstFile/FindNextFile/FindClose enumeration, console output)
  as explicit data: the enumeration result is an input (`none` = open
  failure, `some (first, rest)` = the first entry returned by
  FindFirstFile and the entries returned by successive FindNextFile
  calls), and the observable behaviour is a trace of events
  (handle acquire, output line, handle release) plus an exit code.

  wnsprintf is modelled with standard printf conversion semantics:
  `%d` renders its 32-bit argument as a signed decimal (two's
  complement reading of the unsigned value passed), `%lld` renders its
  64-bit argument as a signed decimal, `%s`/`%ls` insert the text.
  cFileName is a wchar_t[260] (MAX_PATH) field, so a composed line is
  far below the 2048-slot global buffer and wnsprintf truncation never
  occurs for real entries; the embedding therefore composes the full
  line.
-/

namespace Phylo

/-- Attribute flag constant from the Windows headers quoted in the source. -/
def FILE_ATTRIBUTE_READONLY : Nat := 0x1

/-- Attribute flag constant from the Windows headers quoted in the source. -/
def FILE_ATTRIBUTE_HIDDEN : Nat := 0x2

/-- Attribute flag constant from the Windows headers quoted in the source. -/
def FILE_ATTRIBUTE_SYSTEM : Nat := 0x4

/-- Attribute flag constant from the Windows headers quoted in the source. -/
def FILE_ATTRIBUTE_DIRECTORY : Nat := 0x10

/-- Attribute flag constant from the Windows headers quoted in the source. -/
def FILE_ATTRIBUTE_ARCHIVE : Nat := 0x20

/-- Attribute flag constant from the Windows headers quoted in the source. -/
def FILE_ATTRIBUTE_COMPRESSED : Nat := 0x800

/-- Attribute flag constant from the Windows headers quoted in the source. -/
def FILE_ATTRIBUTE_ENCRYPTED : Nat := 0x4000

/-- A FILETIME holds two 32-bit halves of a 64-bit 100ns-tick count. -/
structure FILETIME where
  dwLowDateTime : Nat
  dwHighDateTime : Nat
deriving DecidableEq

/-- ULARGE_INTEGER assembly: `i.HighPart = hi; i.LowPart = lo; i.QuadPart`.
    The parts are DWORD (32-bit) fields, hence the reductions mod 2^32. -/
def quadOf (lo hi : Nat) : Nat := (hi % 2 ^ 32) * 2 ^ 32 + lo % 2 ^ 32

/-- `FileTimeToPOSIX` on the assembled 64-bit tick count:
    `(unsigned)(i.QuadPart / WINDOWS_TICK - SEC_TO_UNIX_EPOCH)`.
    The division is unsigned 64-bit division; the subtraction of the
    `long long` constant happens in `unsigned long long` (mod 2^64);
    the final cast to `unsigned` reduces mod 2^32. -/
def FileTimeToPOSIXTicks (ticks : Nat) : Nat :=
  ((ticks / 10000000 + (2 ^ 64 - 11644473600)) % 2 ^ 64) % 2 ^ 32

/-- `unsigned FileTimeToPOSIX(FILETIME ft)` from the source. -/
def FileTimeToPOSIX (ft : FILETIME) : Nat :=
  FileTimeToPOSIXTicks (quadOf ft.dwLowDateTime ft.dwHighDateTime)

/-- The conversion as the spec words it: `ticks / 10_000_000 − 11_644_473_600`,
    division truncating toward zero, the (possibly negative) result reduced
    to an unsigned 32-bit value. -/
def posixSpec (ticks : Nat) : Nat :=
  ((((ticks / 10000000 : Nat) : Int) - 11644473600) % (2 ^ 32 : Int)).toNat

/-- One enumerated filesystem entry (WIN32_FIND_DATA, the fields the
    program reads). -/
structure WIN32_FIND_DATA where
  dwFileAttributes : Nat
  ftCreationTime : FILETIME
  ftLastAccessTime : FILETIME
  ftLastWriteTime : FILETIME
  nFileSizeHigh : Nat
  nFileSizeLow : Nat
  cFileName : String
deriving DecidableEq

/-- The flag/letter pairs in the order the source tests them:
    Directory, Read-only, Hidden, System, Archive, Compressed, Encrypted. -/
def attrFlags : List (Nat × Char) :=
  [(FILE_ATTRIBUTE_DIRECTORY, 'D'), (FILE_ATTRIBUTE_READONLY, 'R'),
   (FILE_ATTRIBUTE_HIDDEN, 'H'), (FILE_ATTRIBUTE_SYSTEM, 'S'),
   (FILE_ATTRIBUTE_ARCHIVE, 'A'), (FILE_ATTRIBUTE_COMPRESSED, 'C'),
   (FILE_ATTRIBUTE_ENCRYPTED, 'E')]

/-- One conditional write `if (fa & FLAG) attribs[i++] = L;` acting on
    the buffer/index pair. -/
def attrStep (fa : Nat) (acc : List Char × Nat) (p : Nat × Char) : List Char × Nat :=
  if fa &&& p.1 ≠ 0 then (acc.1.set acc.2 p.2, acc.2 + 1) else acc

/-- The sequence of conditional writes `if (fa & FLAG) attribs[i++] = L;`
    into the 16-slot `wchar_t attribs[16]` buffer, modelled as updates of
    a 16-element list together with the running index `i`.  (The real
    buffer starts uninitialised; the null fill stands for the unread
    garbage, which the program never looks at past the terminator.) -/
def writeAttribs (fa : Nat) : List Char × Nat :=
  attrFlags.foldl (attrStep fa) (List.replicate 16 (Char.ofNat 0), 0)

/-- The letters of the set flags, in test order. -/
def attrLetters (fa : Nat) (ps : List (Nat × Char)) : List Char :=
  ps.filterMap (fun p => if fa &&& p.1 ≠ 0 then some p.2 else none)

/-- The attribute C-string after `attribs[i] = 0`: the characters written
    before the terminator. -/
def attribString (fa : Nat) : String :=
  String.mk ((writeAttribs fa).1.take (writeAttribs fa).2)

/-- printf `%d` conversion applied to an `unsigned` argument: the value is
    reduced to 32 bits and read as a two's-complement signed int. -/
def printfD (v : Nat) : String :=
  if v % 2 ^ 32 < 2 ^ 31 then Nat.repr (v % 2 ^ 32)
  else "-" ++ Nat.repr (2 ^ 32 - v % 2 ^ 32)

/-- printf `%lld` conversion applied to a ULONGLONG argument: the value is
    reduced to 64 bits and read as a two's-complement signed long long. -/
def printfLLD (v : Nat) : String :=
  if v % 2 ^ 64 < 2 ^ 63 then Nat.repr (v % 2 ^ 64)
  else "-" ++ Nat.repr (2 ^ 64 - v % 2 ^ 64)

/-- `printFile`: skip `.` and `..`; otherwise compose the wnsprintf line
    `"%s/%d/%d/%d/%lld/%ls\n"` and write it.  The return value is the
    text written (`none` when the entry is skipped). -/
def printFile (data : WIN32_FIND_DATA) : Option String :=
  if data.cFileName = "." then none
  else if data.cFileName = ".." then none
  else
    some (attribString data.dwFileAttributes ++ "/" ++
      printfD (FileTimeToPOSIX data.ftCreationTime) ++ "/" ++
      printfD (FileTimeToPOSIX data.ftLastAccessTime) ++ "/" ++
      printfD (FileTimeToPOSIX data.ftLastWriteTime) ++ "/" ++
      printfLLD (quadOf data.nFileSizeLow data.nFileSizeHigh) ++ "/" ++
      data.cFileName ++ "\n")

/-- The line C1 claims: every numeric field rendered as the decimal text
    of the unsigned converted value (Nat.repr), for all values. -/
def unsignedLine (data : WIN32_FIND_DATA) : String :=
  attribString data.dwFileAttributes ++ "/" ++
    Nat.repr (FileTimeToPOSIX data.ftCreationTime) ++ "/" ++
    Nat.repr (FileTimeToPOSIX data.ftLastAccessTime) ++ "/" ++
    Nat.repr (FileTimeToPOSIX data.ftLastWriteTime) ++ "/" ++
    Nat.repr (quadOf data.nFileSizeLow data.nFileSizeHigh) ++ "/" ++
    data.cFileName ++ "\n"

/-- The line as amended: the numeric fields go through the printf signed
    conversions (%d on the three 32-bit timestamps, %lld on the 64-bit
    size), so a timestamp at or above 2^31 is rendered negative. -/
def signedLine (data : WIN32_FIND_DATA) : String :=
  attribString data.dwFileAttributes ++ "/" ++
    printfD (FileTimeToPOSIX data.ftCreationTime) ++ "/" ++
    printfD (FileTimeToPOSIX data.ftLastAccessTime) ++ "/" ++
    printfD (FileTimeToPOSIX data.ftLastWriteTime) ++ "/" ++
    printfLLD (quadOf data.nFileSizeLow data.nFileSizeHigh) ++ "/" ++
    data.cFileName ++ "\n"

/-- Helper: 100ns ticks split into the two FILETIME halves. -/
def ftOfTicks (t : Nat) : FILETIME := ⟨t % 2 ^ 32, t / 2 ^ 32⟩

/-- The attribute string as §3 of the spec words it: one letter per set
    flag, in the fixed order Directory, Read-only, Hidden, System,
    Archive, Compressed, Encrypted, no separators, nothing for unset
    flags. -/
def specAttribs (fa : Nat) : String :=
  (if fa &&& FILE_ATTRIBUTE_DIRECTORY ≠ 0 then "D" else "") ++
  (if fa &&& FILE_ATTRIBUTE_READONLY ≠ 0 then "R" else "") ++
  (if fa &&& FILE_ATTRIBUTE_HIDDEN ≠ 0 then "H" else "") ++
  (if fa &&& FILE_ATTRIBUTE_SYSTEM ≠ 0 then "S" else "") ++
  (if fa &&& FILE_ATTRIBUTE_ARCHIVE ≠ 0 then "A" else "") ++
  (if fa &&& FILE_ATTRIBUTE_COMPRESSED ≠ 0 then "C" else "") ++
  (if fa &&& FILE_ATTRIBUTE_ENCRYPTED ≠ 0 then "E" else "")

/-- A `.` entry used as a concrete instance. -/
def dotEntry : WIN32_FIND_DATA :=
  ⟨FILE_ATTRIBUTE_DIRECTORY ||| FILE_ATTRIBUTE_HIDDEN, ftOfTicks 116444736000000000,
   ftOfTicks 0, ftOfTicks 0, 0, 0, "."⟩

/-- A concrete entry whose creation timestamp converts to exactly 2^31
    (ticks = (2^31 + 11644473600) * 10^7). -/
def overflowEntry : WIN32_FIND_DATA :=
  ⟨0, ftOfTicks 137919572480000000, ftOfTicks 116444736000000000,
   ftOfTicks 116444736000000000, 0, 0, "x"⟩

/-- A concrete entry with all timestamps below 2^31. -/
def plainEntry : WIN32_FIND_DATA :=
  ⟨FILE_ATTRIBUTE_ARCHIVE, ftOfTicks 126444736000000000, ftOfTicks 126444736000000000,
   ftOfTicks 126444736000000000, 0, 5, "a.txt"⟩

/-- Observable events of one `dir` invocation: acquiring the enumeration
    handle (a successful FindFirstFile), writing a line to the console,
    and releasing the handle (FindClose). -/
inductive DirEvent where
  | acquire : DirEvent
  | output : String → DirEvent
  | release : DirEvent
deriving DecidableEq

/-- Recognizer for the handle-acquire event. -/
def isAcquire : DirEvent → Bool
  | DirEvent.acquire => true
  | _ => false

/-- Recognizer for the handle-release event. -/
def isRelease : DirEvent → Bool
  | DirEvent.release => true
  | _ => false

/-- The diagnostic line of the open-failure path:
    `wnsprintf(buf, CCH - 1, L"Failed to read \"%ls\" (%d)\n", path, GetLastError())`. -/
def errorLine (path : String) (err : Nat) : String :=
  "Failed to read \"" ++ path ++ "\" (" ++ printfD err ++ ")" ++ "\n"

/-- The `do { printFile(data); } while (FindNextFile(find, &data));` loop
    over the enumerated entries: each call to `printFile` contributes its
    write, if any. -/
def dirLoop : List WIN32_FIND_DATA → List DirEvent
  | [] => []
  | d :: ds =>
    (match printFile d with
     | none => []
     | some s => [DirEvent.output s]) ++ dirLoop ds

/-- `int dir(const wchar_t * path)`.  The OS enumeration outcome is the
    input `enum`: `none` models FindFirstFile failing (no handle, with
    `err` the GetLastError code), `some (first, rest)` models success
    with `first` the entry FindFirstFile fills in and `rest` the entries
    the FindNextFile calls deliver.  The result is the event trace and
    the return code. -/
def dir (path : String) (enum : Option (WIN32_FIND_DATA × List WIN32_FIND_DATA))
    (err : Nat) : List DirEvent × Nat :=
  match enum with
  | none => ([DirEvent.output (errorLine path err)], 2)
  | some (first, rest) =>
      (DirEvent.acquire :: (dirLoop (first :: rest) ++ [DirEvent.release]), 0)

/-- The lines written in a trace, in order. -/
def outputs (events : List DirEvent) : List String :=
  events.filterMap fun e =>
    match e with
    | DirEvent.output s => some s
    | _ => none

/-- `int run(int argc, const wchar_t * const * argv)`: reject a wrong
    argument count with a usage line and code 1, dispatch `dir`, and
    answer anything else with the unknown-operation line and code 0.
    `argv` includes the program name, so `argc = argv.length`. -/
def run (argv : List String) (enum : Option (WIN32_FIND_DATA × List WIN32_FIND_DATA))
    (err : Nat) : List DirEvent × Nat :=
  if argv.length ≠ 3 then
    ([DirEvent.output "Expected 2 arguments: operation arg\n"], 1)
  else if argv.getD 1 "" = "dir" then
    dir (argv.getD 2 "") enum err
  else
    ([DirEvent.output "Unknown operation. Should be \"dir\".\n"], 0)

end Phylo

namespace Phylo

/-- Helper: taking one past a set index splits off the written element. -/
lemma take_set_succ (l : List Char) (i : Nat) (c : Char) (h : i < l.length) :
    (l.set i c).take (i + 1) = l.take i ++ [c] := by
  induction l generalizing i with
  | nil => simp at h
  | cons x xs ih =>
    cases i with
    | zero => simp
    | succ n =>
      simp only [List.set_cons_succ, List.take_cons, List.take_succ_cons, List.cons_append,
        List.cons.injEq, true_and]
      exact ih n (by simpa using h)

/-- Helper: the conditional-write fold advances the index by one per set
    flag, preserves the buffer length, and leaves exactly the letters of
    the set flags (in order) between the start index and the final
    index. -/
lemma attrFold_spec (fa : Nat) (ps : List (Nat × Char)) :
    ∀ (buf : List Char) (i : Nat), i + ps.length ≤ buf.length →
    (ps.foldl (attrStep fa) (buf, i)).2 = i + (attrLetters fa ps).length ∧
    (ps.foldl (attrStep fa) (buf, i)).1.length = buf.length ∧
    (ps.foldl (attrStep fa) (buf, i)).1.take
        ((ps.foldl (attrStep fa) (buf, i)).2) =
      buf.take i ++ attrLetters fa ps := by
  induction ps with
  | nil => intro buf i h; simp [attrLetters]
  | cons p ps ih =>
    intro buf i h
    simp only [List.length_cons] at h
    by_cases hc : fa &&& p.1 ≠ 0
    · have hi : i < buf.length := by omega
      have hrec := ih (buf.set i p.2) (i + 1) (by rw [List.length_set]; omega)
      have hL : attrLetters fa (p :: ps) = p.2 :: attrLetters fa ps := by
        simp [attrLetters, hc]
      simp only [List.foldl_cons, attrStep, if_pos hc, hL]
      refine ⟨?_, ?_, ?_⟩
      · rw [hrec.1]; simp; omega
      · rw [hrec.2.1, List.length_set]
      · rw [hrec.2.2, take_set_succ buf i p.2 hi]
        simp
    · have hrec := ih buf i (by omega)
      have hL : attrLetters fa (p :: ps) = attrLetters fa ps := by
        simp only [attrLetters, List.filterMap_cons, if_neg hc]
      simp only [List.foldl_cons, attrStep, if_neg hc, hL]
      exact hrec

/-- Helper: the attribute buffer after the writes holds exactly the set
    flags' letters before the terminator index. -/
lemma writeAttribs_spec (fa : Nat) :
    (writeAttribs fa).2 = (attrLetters fa attrFlags).length ∧
    (writeAttribs fa).1.length = 16 ∧
    (writeAttribs fa).1.take (writeAttribs fa).2 = attrLetters fa attrFlags := by
  have h := attrFold_spec fa attrFlags (List.replicate 16 (Char.ofNat 0)) 0
    (by simp [attrFlags])
  refine ⟨by simpa using h.1, by simpa using h.2.1, by simpa using h.2.2⟩

/-- Helper: the attribute C-string is the set flags' letters in order. -/
lemma attribString_eq (fa : Nat) :
    attribString fa = String.mk (attrLetters fa attrFlags) := by
  unfold attribString
  rw [(writeAttribs_spec fa).2.2]

/-- Helper: at most seven letters are collected. -/
lemma attrLetters_length_le (fa : Nat) : (attrLetters fa attrFlags).length ≤ 7 := by
  have h := List.length_filterMap_le
    (fun p => if fa &&& p.1 ≠ 0 then some p.2 else none) attrFlags
  simpa [attrFlags, attrLetters] using h

/-- Helper: `printFile` produces nothing on `.` and `..` entries. -/
lemma printFile_eq_none_of_dot (data : WIN32_FIND_DATA)
    (h : data.cFileName = "." ∨ data.cFileName = "..") : printFile data = none := by
  unfold printFile
  rcases h with h | h <;> simp [h]

/-- Helper: `%d` on a value below 2^31 prints the plain decimal text. -/
lemma printfD_eq_repr (v : Nat) (h : v < 2 ^ 31) : printfD v = Nat.repr v := by
  have hv : v % 2 ^ 32 = v := Nat.mod_eq_of_lt (lt_trans h (by norm_num))
  unfold printfD
  rw [hv, if_pos h]

/-- Helper: `%lld` on a value below 2^63 prints the plain decimal text. -/
lemma printfLLD_eq_repr (v : Nat) (h : v < 2 ^ 63) : printfLLD v = Nat.repr v := by
  have hv : v % 2 ^ 64 = v := Nat.mod_eq_of_lt (lt_trans h (by norm_num))
  unfold printfLLD
  rw [hv, if_pos (hv ▸ h)]

/-- Helper: the enumeration loop only ever writes lines. -/
lemma dirLoop_only_output (l : List WIN32_FIND_DATA) :
    ∀ e ∈ dirLoop l, ∃ s, e = DirEvent.output s := by
  induction l with
  | nil => simp [dirLoop]
  | cons d ds ih =>
    intro e he
    simp only [dirLoop, List.mem_append] at he
    rcases he with he | he
    · cases hp : printFile d with
      | none => rw [hp] at he; simp at he
      | some s => rw [hp] at he; simp at he; exact ⟨s, he⟩
    · exact ih e he

/-- Helper: a loop over `.`/`..` entries only produces no events. -/
lemma dirLoop_nil_of_dots (l : List WIN32_FIND_DATA)
    (h : ∀ d ∈ l, d.cFileName = "." ∨ d.cFileName = "..") :
    dirLoop l = [] := by
  induction l with
  | nil => rfl
  | cons d ds ih =>
    have hd := printFile_eq_none_of_dot d (h d (by simp))
    have hds := ih fun x hx => h x (by simp [hx])
    simp [dirLoop, hd, hds]

/-- Helper: no acquire and no release events inside the loop. -/
lemma dirLoop_countP (l : List WIN32_FIND_DATA) :
    (dirLoop l).countP isAcquire = 0 ∧ (dirLoop l).countP isRelease = 0 := by
  constructor <;>
  · rw [List.countP_eq_zero]
    intro e he
    obtain ⟨s, rfl⟩ := dirLoop_only_output l e he
    simp [isAcquire, isRelease]

end Phylo

namespace Phylo

/-- C2: for every OS-native 64-bit tick value the conversion implements the
    spec formula (truncating division by 10^7, subtract 11644473600 over the
    integers, reduce to unsigned 32 bits); in particular the tick value of
    the Unix epoch yields 0 and the tick value of 1000000000 seconds after
    the epoch yields 1000000000. -/
theorem fileTimeToPOSIX_matches_spec (ticks : Nat) (h : ticks < 2 ^ 64) :
    FileTimeToPOSIXTicks ticks = posixSpec ticks ∧
    FileTimeToPOSIXTicks 116444736000000000 = 0 ∧
    FileTimeToPOSIXTicks 126444736000000000 = 1000000000 := by
  refine ⟨?_, by decide, by decide⟩
  unfold FileTimeToPOSIXTicks posixSpec
  omega

/-- Witness for C2 at a concrete tick value. -/
theorem fileTimeToPOSIX_matches_spec_witness :
    (137919572480000000 : Nat) < 2 ^ 64 ∧
      (FileTimeToPOSIXTicks 137919572480000000 = posixSpec 137919572480000000 ∧
       FileTimeToPOSIXTicks 116444736000000000 = 0 ∧
       FileTimeToPOSIXTicks 126444736000000000 = 1000000000) :=
  ⟨by decide, fileTimeToPOSIX_matches_spec 137919572480000000 (by decide)⟩

/-- C3: for every flag combination the attribute field is exactly the
    letters of the set flags among D,R,H,S,A,C,E in that fixed order with
    no separators; only the directory flag gives "D", and
    directory+hidden+system gives "DHS". -/
theorem attribString_fixed_order (fa : Nat) :
    attribString fa = specAttribs fa ∧
    attribString FILE_ATTRIBUTE_DIRECTORY = "D" ∧
    attribString (FILE_ATTRIBUTE_DIRECTORY ||| FILE_ATTRIBUTE_HIDDEN |||
      FILE_ATTRIBUTE_SYSTEM) = "DHS" := by
  refine ⟨?_, by decide, by decide⟩
  rw [attribString_eq]
  by_cases h1 : fa &&& FILE_ATTRIBUTE_DIRECTORY ≠ 0 <;>
  by_cases h2 : fa &&& FILE_ATTRIBUTE_READONLY ≠ 0 <;>
  by_cases h3 : fa &&& FILE_ATTRIBUTE_HIDDEN ≠ 0 <;>
  by_cases h4 : fa &&& FILE_ATTRIBUTE_SYSTEM ≠ 0 <;>
  by_cases h5 : fa &&& FILE_ATTRIBUTE_ARCHIVE ≠ 0 <;>
  by_cases h6 : fa &&& FILE_ATTRIBUTE_COMPRESSED ≠ 0 <;>
  by_cases h7 : fa &&& FILE_ATTRIBUTE_ENCRYPTED ≠ 0 <;>
  simp [attrLetters, attrFlags, specAttribs, h1, h2, h3, h4, h5, h6, h7]

/-- C10: across all flag combinations at most 7 letters are written into
    the 16-slot attribute buffer, the terminator index stays below 16
    (every write is in bounds), and the attribute field has length at
    most 7. -/
theorem attrib_buffer_writes_in_bounds (fa : Nat) :
    (writeAttribs fa).2 ≤ 7 ∧ (writeAttribs fa).2 < 16 ∧
    (attribString fa).length ≤ 7 := by
  have h1 : (writeAttribs fa).2 ≤ 7 := by
    rw [(writeAttribs_spec fa).1]; exact attrLetters_length_le fa
  refine ⟨h1, by omega, ?_⟩
  rw [attribString_eq]
  simpa using attrLetters_length_le fa

/-- C4: entries named `.` or `..` produce no output at all, whatever the
    other fields hold. -/
theorem printFile_skips_dot_entries (data : WIN32_FIND_DATA)
    (h : data.cFileName = "." ∨ data.cFileName = "..") : printFile data = none :=
  printFile_eq_none_of_dot data h

/-- Witness for C4 at a concrete `.` entry. -/
theorem printFile_skips_dot_entries_witness :
    printFile dotEntry = none :=
  printFile_skips_dot_entries dotEntry (Or.inl rfl)

/-- C1 counterexample: an entry whose creation timestamp converts to 2^31
    is formatted, but the produced line is the signed (%d) rendering, not
    the line with the decimal text of the unsigned value. -/
theorem printFile_unsigned_line_cex :
    printFile overflowEntry = some (signedLine overflowEntry) ∧
    printFile overflowEntry ≠ some (unsignedLine overflowEntry) := by
  constructor
  · rfl
  · decide

/-- C1 amended: a formatted entry's line is
    `"<attrs>/<created>/<accessed>/<modified>/<size>/<name>\n"` with the
    three timestamps rendered through the signed 32-bit `%d` conversion
    and the size through the signed 64-bit `%lld` conversion; whenever
    each timestamp is below 2^31 and the size below 2^63 these coincide
    with the decimal text of the unsigned values. -/
theorem printFile_line_format (data : WIN32_FIND_DATA)
    (h1 : data.cFileName ≠ ".") (h2 : data.cFileName ≠ "..") :
    printFile data = some (signedLine data) ∧
    (FileTimeToPOSIX data.ftCreationTime < 2 ^ 31 →
     FileTimeToPOSIX data.ftLastAccessTime < 2 ^ 31 →
     FileTimeToPOSIX data.ftLastWriteTime < 2 ^ 31 →
     quadOf data.nFileSizeLow data.nFileSizeHigh < 2 ^ 63 →
     printFile data = some (unsignedLine data)) := by
  constructor
  · unfold printFile signedLine
    simp [h1, h2]
  · intro hc ha hm hs
    unfold printFile unsignedLine
    simp [h1, h2, printfD_eq_repr _ hc, printfD_eq_repr _ ha,
      printfD_eq_repr _ hm, printfLLD_eq_repr _ hs]

/-- Witness for C1's amended theorem at a concrete entry. -/
theorem printFile_line_format_witness :
    printFile plainEntry = some (unsignedLine plainEntry) :=
  (printFile_line_format plainEntry (by decide) (by decide)).2
    (by decide) (by decide) (by decide) (by decide)

/-- C5: when opening the enumeration fails, `dir` emits exactly one
    diagnostic line, that line contains the literal pattern text and the
    OS error code, and the return code is 2. -/
theorem dir_open_failure (path : String) (err : Nat)
    (enum : Option (WIN32_FIND_DATA × List WIN32_FIND_DATA)) (h : enum = none) :
    (dir path enum err).2 = 2 ∧
    outputs (dir path enum err).1 = [errorLine path err] ∧
    (∃ a b, errorLine path err = a ++ path ++ b) ∧
    (∃ a b, errorLine path err = a ++ printfD err ++ b) := by
  subst h
  refine ⟨rfl, rfl,
    ⟨"Failed to read \"", "\" (" ++ printfD err ++ ")" ++ "\n", ?_⟩,
    ⟨"Failed to read \"" ++ path ++ "\" (", ")" ++ "\n", ?_⟩⟩ <;>
  simp [errorLine, String.append_assoc]

/-- Witness for C5 at a concrete pattern and error code. -/
theorem dir_open_failure_witness :
    (dir "missing" none 3).2 = 2 ∧
    outputs (dir "missing" none 3).1 = [errorLine "missing" 3] ∧
    (∃ a b, errorLine "missing" 3 = a ++ "missing" ++ b) ∧
    (∃ a b, errorLine "missing" 3 = a ++ printfD 3 ++ b) :=
  dir_open_failure "missing" 3 none rfl

/-- C6: when the enumeration opens and every enumerated entry is `.` or
    `..`, `dir` writes no lines and returns 0. -/
theorem dir_no_real_entries (path : String) (err : Nat)
    (first : WIN32_FIND_DATA) (rest : List WIN32_FIND_DATA)
    (h : ∀ d ∈ first :: rest, d.cFileName = "." ∨ d.cFileName = "..") :
    outputs (dir path (some (first, rest)) err).1 = [] ∧
    (dir path (some (first, rest)) err).2 = 0 := by
  have hl := dirLoop_nil_of_dots (first :: rest) h
  simp [dir, outputs, hl]

/-- Witness for C6 with an enumeration holding only a `.` entry. -/
theorem dir_no_real_entries_witness :
    outputs (dir "*" (some (dotEntry, [])) 0).1 = [] ∧
    (dir "*" (some (dotEntry, [])) 0).2 = 0 :=
  dir_no_real_entries "*" 0 dotEntry [] (by decide)

/-- C7: on every execution path of `dir` the handle is released exactly
    as many times as it is acquired, it is acquired at most once, and no
    release happens before the acquire. -/
theorem dir_handle_discipline (path : String)
    (enum : Option (WIN32_FIND_DATA × List WIN32_FIND_DATA)) (err : Nat) :
    (dir path enum err).1.countP isRelease = (dir path enum err).1.countP isAcquire ∧
    (dir path enum err).1.countP isAcquire ≤ 1 ∧
    ((dir path enum err).1.takeWhile (fun e => ! isAcquire e)).countP isRelease = 0 := by
  cases enum with
  | none =>
    refine ⟨?_, ?_, ?_⟩ <;>
    simp [dir, List.countP_cons, isAcquire, isRelease, List.takeWhile]
  | some pr =>
    obtain ⟨first, rest⟩ := pr
    have hL := dirLoop_countP (first :: rest)
    refine ⟨?_, ?_, ?_⟩ <;>
    simp [dir, List.countP_cons, List.countP_append, isAcquire, isRelease,
      List.takeWhile, hL.1, hL.2]

/-- C8: a wrong top-level argument count (zero or one arguments beyond
    the program name) gets the usage line and exit code 1, with no
    listing performed. -/
theorem run_wrong_arg_count (argv : List String)
    (enum : Option (WIN32_FIND_DATA × List WIN32_FIND_DATA)) (err : Nat)
    (h : argv.length = 1 ∨ argv.length = 2) :
    run argv enum err =
      ([DirEvent.output "Expected 2 arguments: operation arg\n"], 1) := by
  have h3 : argv.length ≠ 3 := by rcases h with h | h <;> omega
  simp [run, h3]

/-- Witness for C8 with only the program name supplied. -/
theorem run_wrong_arg_count_witness :
    run ["phylo"] none 0 =
      ([DirEvent.output "Expected 2 arguments: operation arg\n"], 1) :=
  run_wrong_arg_count ["phylo"] none 0 (Or.inl rfl)

/-- C9: with exactly two arguments whose first is not `dir`, `run`
    prints the single unknown-operation line and returns 0. -/
theorem run_unknown_operation (prog op arg : String)
    (enum : Option (WIN32_FIND_DATA × List WIN32_FIND_DATA)) (err : Nat)
    (h : op ≠ "dir") :
    run [prog, op, arg] enum err =
      ([DirEvent.output "Unknown operation. Should be \"dir\".\n"], 0) := by
  simp [run, h]

/-- Witness for C9 with the sub-command `foo`. -/
theorem run_unknown_operation_witness :
    run ["phylo", "foo", "x"] none 0 =
      ([DirEvent.output "Unknown operation. Should be \"dir\".\n"], 0) :=
  run_unknown_operation "phylo" "foo" "x" none 0 (by decide)

end Phylo
